import Mathlib

/-!
Shallow embedding of the TutorsLink core: the client-side role resolver
(`handleAuthStateChange`, src/unnamed/part_000 lines 608-645) and the Firebase
Cloud Functions (`notifyDiscord`, `submitTutorApplication`, `bookDemoClass`,
`approveTutorApplication`, `extractAdContent`, `syncDiscordAdsWebhook`,
src/unnamed/part_002 lines 276-564).

JavaScript strings are modelled as Lean `String` (a list of characters).
The JS operations used by the code (`trim`, `slice(0,n)`, `toLowerCase`,
`toUpperCase`, `startsWith`, `||` on possibly-absent string fields) are given
structurally recursive definitions over the character list so that every
definition evaluates inside the kernel.  Absent/undefined JS fields are
`Option String`; the empty string and `undefined` are both falsy, exactly as
in the source.  Firestore server timestamps carry no information relevant to
any verified property and are omitted from the document records.
-/

/-- JS `String(x || '')` for a possibly-absent string field: absent behaves
as the empty string. -/
def optStr (o : Option String) : String := o.getD ""

/-- JS `toLowerCase` (character-wise, as used on ASCII email addresses). -/
def jsLower (s : String) : String := ⟨s.data.map Char.toLower⟩

/-- JS `toUpperCase` (character-wise, as used on ASCII event names). -/
def jsUpper (s : String) : String := ⟨s.data.map Char.toUpper⟩

/-- ASCII whitespace, the characters JS `trim` removes from the inputs the
code handles. -/
def wsChar (c : Char) : Bool := c == ' ' || c == '\t' || c == '\n' || c == '\r'

/-- Drop leading whitespace from a character list. -/
def dropWS : List Char → List Char
  | [] => []
  | c :: cs => if wsChar c then dropWS cs else c :: cs

/-- Trim whitespace from both ends of a character list. -/
def trimChars (l : List Char) : List Char :=
  (dropWS ((dropWS l).reverse)).reverse

/-- JS `String.prototype.trim`. -/
def jsTrim (s : String) : String := ⟨trimChars s.data⟩

/-- JS `String.prototype.slice(0, n)`. -/
def jsSlice (s : String) (n : Nat) : String := ⟨s.data.take n⟩

/-- Does the first list start with the second? -/
def startsWithChars : List Char → List Char → Bool
  | _, [] => true
  | [], _ :: _ => false
  | a :: as, b :: bs => a == b && startsWithChars as bs

/-- JS `String.prototype.startsWith`. -/
def jsStartsWith (s p : String) : Bool := startsWithChars s.data p.data

/-- JS `String(a || b || '')` on two possibly-absent string fields: the first
truthy (present and non-empty) value, defaulting to the empty string. -/
def jsOr2 (a b : Option String) : String :=
  if optStr a = "" then optStr b else optStr a

/-- JS `String(a || dflt)`: the field when truthy, otherwise the default. -/
def jsOrDefault (o : Option String) (dflt : String) : String :=
  if optStr o = "" then dflt else optStr o

/-! ## Identity claims resolver (src/unnamed/part_000, lines 608-645) -/

/-- The application roles (`var ROLES = { GUEST: 'guest', ... }`). -/
inductive Role where
  | guest
  | student
  | tutor
  | staff
  deriving DecidableEq

/-- The token claim bag read by the client resolver: only the `staff` and
`tutor` claims are consulted. -/
structure TokenClaims where
  staff : Bool
  tutor : Bool
  deriving DecidableEq

/-- A signed-in principal as seen by the resolver; `email` may be absent. -/
structure Principal where
  email : Option String
  deriving DecidableEq

/-- Outcome of `user.getIdTokenResult(true)`: either the claim bag, or a
rejection (the `.catch` branch of the source). -/
inductive TokenFetch where
  | ok (claims : TokenClaims)
  | failed
  deriving DecidableEq

/-- `var ADMIN_EMAIL = 'tutorslink001@gmail.com';` (part_000 line 617). -/
def ADMIN_EMAIL : String := "tutorslink001@gmail.com"

/-- JS `user.email && user.email.toLowerCase() === ADMIN_EMAIL`
(part_000 lines 630 and 640): an absent or empty email is falsy. -/
def isAdminEmailJs (e : Option String) : Bool :=
  match e with
  | none => false
  | some s => if s = "" then false else if jsLower s = ADMIN_EMAIL then true else false

/-- `handleAuthStateChange` (part_000 lines 619-645), restricted to the role it
resolves: no user means `guest`; with a user, the fetched claims drive the
staff/tutor/student decision, and a fetch failure falls back to
admin-email-staff or student. -/
def handleAuthStateChange (user : Option Principal) (fetch : TokenFetch) : Role :=
  match user with
  | none => .guest
  | some u =>
    match fetch with
    | .ok claims =>
      if claims.staff = true ∨ isAdminEmailJs u.email = true then .staff
      else if claims.tutor = true then .tutor
      else .student
    | .failed => if isAdminEmailJs u.email = true then .staff else .student

/-- The spec's wording of admin matching: the email case-insensitively equals
the configured admin address. -/
def emailMatchesAdminSpec (e : Option String) : Bool :=
  match e with
  | none => false
  | some s => if jsLower s = jsLower ADMIN_EMAIL then true else false

/-- The role resolution exactly as the spec words it (spec 4.1 and 8): staff
if the staff claim is true or the email case-insensitively equals the admin
address, else tutor if the tutor claim is true, else student; on fetch
failure, staff for the admin email and student otherwise; guest when no
principal is present. -/
def specRole (user : Option Principal) (fetch : TokenFetch) : Role :=
  match user with
  | none => .guest
  | some u =>
    match fetch with
    | .ok claims =>
      if claims.staff = true ∨ emailMatchesAdminSpec u.email = true then .staff
      else if claims.tutor = true then .tutor
      else .student
    | .failed => if emailMatchesAdminSpec u.email = true then .staff else .student

/-! ## approveTutorApplication (src/unnamed/part_002, lines 414-440) -/

/-- The callable-function caller context: `context.auth` carries the caller
uid and the decoded token claims (an open bag; a claim is truthy only when
present with value `true`). -/
structure AuthCtx where
  uid : String
  token : String → Option Bool

/-- The `data` argument of `approveTutorApplication`. -/
structure ApproveData where
  uid : Option String
  applicationId : Option String

/-- An Auth user record: `customClaims` may be undefined (`|| {}` in the
source). -/
structure UserRec where
  customClaims : Option (String → Option Bool)

/-- A `tutorApplications` document, restricted to the fields the approval
writes. -/
structure AppRec where
  status : String
  approvedBy : Option String

/-- The server-side state touched by `approveTutorApplication`: the Auth user
records and the `tutorApplications` collection, both keyed by id. -/
structure AdminState where
  users : String → Option UserRec
  tutorApplications : String → Option AppRec

/-- The coded errors thrown by the callable functions. -/
inductive CallError where
  | invalidArgument (msg : String)
  | permissionDenied (msg : String)
  | internal
  deriving DecidableEq

/-- The claim bag of a user without custom claims. -/
def emptyClaims : String → Option Bool := fun _ => none

/-- JS `{ ...existing, tutor: true }` (part_002 line 427): every key other
than `tutor` keeps its existing value. -/
def mergedTutorClaims (existing : String → Option Bool) : String → Option Bool :=
  fun k => if k = "tutor" then some true else existing k

/-- `admin.auth().setCustomUserClaims(uid, claims)`: replace one user's claim
bag. -/
def setUserClaims (st : AdminState) (uid : String) (claims : String → Option Bool) : AdminState :=
  { st with users := fun k => if k = uid then some ⟨some claims⟩ else st.users k }

/-- The Firestore `update` on `tutorApplications/{applicationId}`
(part_002 lines 431-435); updating a missing document throws. -/
def approveApplicationDoc (st : AdminState) (appId : String) (approver : String) :
    AdminState × Except CallError Unit :=
  match st.tutorApplications appId with
  | none => (st, .error .internal)
  | some appDoc =>
    ({ st with tutorApplications := fun k =>
        if k = appId then some { appDoc with status := "approved", approvedBy := some approver }
        else st.tutorApplications k },
     .ok ())

/-- `approveTutorApplication` (part_002 lines 414-440): staff-gated; trims and
requires `data.uid`; merges `tutor=true` into the target's existing claims;
optionally marks the application approved.  The returned state reflects every
write committed before a failure. -/
def approveTutorApplication (auth : Option AuthCtx) (data : ApproveData) (st : AdminState) :
    AdminState × Except CallError Unit :=
  match auth with
  | none => (st, .error (.permissionDenied "Only staff can approve tutor applications."))
  | some a =>
    if a.token "staff" = some true then
      if jsTrim (optStr data.uid) = "" then (st, .error (.invalidArgument "uid is required."))
      else
        match st.users (jsTrim (optStr data.uid)) with
        | none => (st, .error .internal)
        | some u =>
          if optStr data.applicationId = "" then
            (setUserClaims st (jsTrim (optStr data.uid))
              (mergedTutorClaims (u.customClaims.getD emptyClaims)), .ok ())
          else
            approveApplicationDoc
              (setUserClaims st (jsTrim (optStr data.uid))
                (mergedTutorClaims (u.customClaims.getD emptyClaims)))
              (optStr data.applicationId) a.uid
    else (st, .error (.permissionDenied "Only staff can approve tutor applications."))

/-- The claim bag of the user stored under `uid` (empty for a missing user or
missing custom claims). -/
def claimsOfUser (st : AdminState) (uid : String) : String → Option Bool :=
  match st.users uid with
  | some u => u.customClaims.getD emptyClaims
  | none => emptyClaims

/-- A caller is staff when authenticated with a truthy `staff` token claim. -/
def isStaffCaller (auth : Option AuthCtx) : Prop :=
  ∃ a, auth = some a ∧ a.token "staff" = some true

/-! ## Outbound notifier and workflow functions (part_002, lines 276-397) -/

/-- What the network did for the one POST `notifyDiscord` performs: the server
answered with some HTTP status, or the request failed at the network level
(the `req.on('error', reject)` path). -/
inductive NetOutcome where
  | response (statusCode : Nat)
  | networkError
  deriving DecidableEq

/-- JS `!webhookUrl || webhookUrl.startsWith('REPLACE')` negated
(part_002 line 277): the webhook counts as configured only when present,
non-empty and not a placeholder. -/
def webhookConfigured (url : Option String) : Bool :=
  match url with
  | none => false
  | some s => if s = "" then false else if jsStartsWith s "REPLACE" = true then false else true

/-- `notifyDiscord` (part_002 lines 276-296): unconfigured means log and
return; configured means one POST whose promise resolves on any received
status code and rejects only on a network error.  There is no catch anywhere,
so the rejection propagates to the awaiting caller. -/
def notifyDiscord (url : Option String) (net : NetOutcome) : Except Unit Unit :=
  if webhookConfigured url = false then .ok ()
  else
    match net with
    | .response _ => .ok ()
    | .networkError => .error ()

/-- The tutor-application payload fields the validation and notification
read. -/
structure SubmitData where
  firstName : Option String
  lastName : Option String
  email : Option String
  primarySubject : Option String
  teachingBio : Option String
  country : Option String
  teachingExperience : Option String
  deriving DecidableEq

/-- The required-field loop of `submitTutorApplication` (part_002 lines
303-308): first field that is falsy or trims to empty, in declaration
order. -/
def missingRequiredField (d : SubmitData) : Option String :=
  if jsTrim (optStr d.firstName) = "" then some "firstName"
  else if jsTrim (optStr d.lastName) = "" then some "lastName"
  else if jsTrim (optStr d.email) = "" then some "email"
  else if jsTrim (optStr d.primarySubject) = "" then some "primarySubject"
  else if jsTrim (optStr d.teachingBio) = "" then some "teachingBio"
  else none

/-- A `tutorApplications` document as created by submission. -/
structure ApplicationDoc where
  data : SubmitData
  status : String
  uid : Option String
  deriving DecidableEq

/-- `submitTutorApplication` (part_002 lines 301-335): validate, add the
document with `status='pending'`, then `await notifyDiscord(...)`; a
rejection of the notifier fails the call after the write is committed. -/
def submitTutorApplication (d : SubmitData) (authUid : Option String)
    (webhookUrl : Option String) (net : NetOutcome) (apps : List ApplicationDoc) :
    List ApplicationDoc × Except CallError Unit :=
  match missingRequiredField d with
  | some f => (apps, .error (.invalidArgument ("Missing required field: " ++ f)))
  | none =>
    match notifyDiscord webhookUrl net with
    | .ok _ => (apps ++ [⟨d, "pending", authUid⟩], .ok ())
    | .error _ => (apps ++ [⟨d, "pending", authUid⟩], .error .internal)

/-- The `data.meta` object of `bookDemoClass`. -/
structure BookMeta where
  tutorName : Option String
  subject : Option String
  deriving DecidableEq

/-- A `demoBookings` document. -/
structure BookingDoc where
  tutorId : String
  tutorName : String
  subject : String
  uid : Option String
  status : String
  deriving DecidableEq

/-- The booking document built by `bookDemoClass` (part_002 lines 371-378). -/
def mkBookingDoc (tutorId : Option String) (meta : Option BookMeta)
    (authUid : Option String) : BookingDoc :=
  { tutorId := optStr tutorId
    tutorName := jsOrDefault (match meta with | some m => m.tutorName | none => none) "Unknown"
    subject := jsOrDefault (match meta with | some m => m.subject | none => none) "Unknown"
    uid := authUid
    status := "pending_confirmation" }

/-- `bookDemoClass` (part_002 lines 366-397): requires a truthy `tutorId`,
adds the booking, then awaits the notifier exactly as submission does. -/
def bookDemoClass (tutorId : Option String) (meta : Option BookMeta) (authUid : Option String)
    (webhookUrl : Option String) (net : NetOutcome) (bookings : List BookingDoc) :
    List BookingDoc × Except CallError Unit :=
  if optStr tutorId = "" then (bookings, .error (.invalidArgument "tutorId is required."))
  else
    match notifyDiscord webhookUrl net with
    | .ok _ => (bookings ++ [mkBookingDoc tutorId meta authUid], .ok ())
    | .error _ => (bookings ++ [mkBookingDoc tutorId meta authUid], .error .internal)

/-! ## syncDiscordAdsWebhook (part_002, lines 463-564) -/

/-- An `ads` document, restricted to the fields the webhook reads or
writes. -/
structure AdDoc where
  title : String
  body : String
  source : String
  status : String
  discordMessageId : String
  discordChannelId : String
  discordAuthor : String
  createdBy : Option String
  deriving DecidableEq

/-- The JSON body of a webhook request; every field may be absent. -/
structure SyncPayload where
  event : Option String
  messageId : Option String
  channelId : Option String
  authorId : Option String
  authorName : Option String
  title : Option String
  body : Option String
  content : Option String
  deriving DecidableEq

/-- The Firebase config slot `discord.sync_secret`. -/
structure SyncConfig where
  sync_secret : Option String
  deriving DecidableEq

/-- An incoming HTTP request: method, the `x-tl-sync-secret` header and the
parsed JSON body. -/
structure SyncRequest where
  method : String
  syncSecretHeader : Option String
  body : SyncPayload
  deriving DecidableEq

/-- The two collections the webhook touches. -/
structure AdsStore where
  ads : List AdDoc
  discordEvents : List SyncPayload
  deriving DecidableEq

/-- The observable outcome of one webhook invocation: the HTTP status sent,
the resulting store, and whether the `ads` collection was queried at all. -/
structure WebhookOutcome where
  status : Nat
  store : AdsStore
  adsQueried : Bool
  deriving DecidableEq

/-- `extractAdContent` (part_002 lines 464-468):
`String(title || content || '').trim().slice(0,120)` and
`String(body || content || '').trim().slice(0,2000)`. -/
def extractAdContent (p : SyncPayload) : String × String :=
  (jsSlice (jsTrim (jsOr2 p.title p.content)) 120,
   jsSlice (jsTrim (jsOr2 p.body p.content)) 2000)

/-- The Firestore lookup `ads.where('discordMessageId','==',mid).limit(1)`:
the first stored ad carrying that Discord message id. -/
def findAd : List AdDoc → String → Option AdDoc
  | [], _ => none
  | a :: rest, mid => if a.discordMessageId = mid then some a else findAd rest mid

/-- `existing.docs[0].ref.update(...)`: apply `f` to the first ad with the
given Discord message id, leaving everything else in place. -/
def updateFirstAd : List AdDoc → String → (AdDoc → AdDoc) → List AdDoc
  | [], _, _ => []
  | a :: rest, mid, f =>
    if a.discordMessageId = mid then f a :: rest else a :: updateFirstAd rest mid f

/-- How many stored ads carry the given Discord message id. -/
def countAds : List AdDoc → String → Nat
  | [], _ => 0
  | a :: rest, mid => (if a.discordMessageId = mid then 1 else 0) + countAds rest mid

/-- The update object of the `MESSAGE_CREATE` restore branch (part_002 lines
514-519): new title and body, status forced back to `active`. -/
def applyCreate (t b : String) (a : AdDoc) : AdDoc :=
  { a with title := t, body := b, status := "active" }

/-- The update object of the `MESSAGE_UPDATE` branch (part_002 lines
541-545): new title and body only; status untouched. -/
def applyUpdate (t b : String) (a : AdDoc) : AdDoc :=
  { a with title := t, body := b }

/-- The update object of the `MESSAGE_DELETE` branch (part_002 lines
549-552): status becomes `archived`. -/
def applyArchive (a : AdDoc) : AdDoc := { a with status := "archived" }

/-- The document added by the `MESSAGE_CREATE` insert branch (part_002 lines
521-532). -/
def newAd (p : SyncPayload) : AdDoc :=
  { title := (extractAdContent p).1
    body := (extractAdContent p).2
    source := "discord"
    status := "active"
    discordMessageId := jsTrim (optStr p.messageId)
    discordChannelId := jsTrim (optStr p.channelId)
    discordAuthor := jsTrim (optStr p.authorName)
    createdBy := none }

/-- JS `syncSecret && !syncSecret.startsWith('REPLACE')` (part_002 line 478):
the shared-secret check runs only when the configured secret is present,
non-empty and not a placeholder. -/
def secretCheckEnabled (cfg : SyncConfig) : Bool :=
  match cfg.sync_secret with
  | none => false
  | some s => if s = "" then false else if jsStartsWith s "REPLACE" = true then false else true

/-- `String(body.messageId || '').trim()` (part_002 line 492). -/
def midOf (p : SyncPayload) : String := jsTrim (optStr p.messageId)

/-- `String(body.event || '').toUpperCase()` (part_002 line 488). -/
def eventOf (p : SyncPayload) : String := jsUpper (optStr p.event)

/-- `syncDiscordAdsWebhook` (part_002 lines 470-564): method check, optional
shared-secret check, messageId validation, one `ads` lookup, then the
per-event create/update/delete/fallback behaviour. -/
def syncDiscordAdsWebhook (cfg : SyncConfig) (req : SyncRequest) (st : AdsStore) :
    WebhookOutcome :=
  if req.method ≠ "POST" then ⟨405, st, false⟩
  else if secretCheckEnabled cfg = true ∧ optStr req.syncSecretHeader ≠ optStr cfg.sync_secret then
    ⟨401, st, false⟩
  else if midOf req.body = "" then ⟨400, st, false⟩
  else if eventOf req.body = "MESSAGE_CREATE" then
    if (extractAdContent req.body).1 = "" then ⟨400, st, true⟩
    else
      match findAd st.ads (midOf req.body) with
      | some _ =>
        ⟨200, { st with ads := (updateFirstAd st.ads (midOf req.body)
            (applyCreate (extractAdContent req.body).1 (extractAdContent req.body).2)) }, true⟩
      | none => ⟨200, { st with ads := st.ads ++ [newAd req.body] }, true⟩
  else if eventOf req.body = "MESSAGE_UPDATE" then
    match findAd st.ads (midOf req.body) with
    | none => ⟨404, st, true⟩
    | some _ =>
      ⟨200, { st with ads := (updateFirstAd st.ads (midOf req.body)
          (applyUpdate (extractAdContent req.body).1 (extractAdContent req.body).2)) }, true⟩
  else if eventOf req.body = "MESSAGE_DELETE" then
    match findAd st.ads (midOf req.body) with
    | some _ => ⟨200, { st with ads := updateFirstAd st.ads (midOf req.body) applyArchive }, true⟩
    | none => ⟨200, st, true⟩
  else ⟨200, { st with discordEvents := st.discordEvents ++ [req.body] }, true⟩

/-- The request passes the (possibly disabled) shared-secret gate. -/
def secretOk (cfg : SyncConfig) (req : SyncRequest) : Prop :=
  ¬(secretCheckEnabled cfg = true ∧ optStr req.syncSecretHeader ≠ optStr cfg.sync_secret)

instance (cfg : SyncConfig) (req : SyncRequest) : Decidable (secretOk cfg req) :=
  inferInstanceAs (Decidable ¬(secretCheckEnabled cfg = true
    ∧ optStr req.syncSecretHeader ≠ optStr cfg.sync_secret))

/-! ## Concrete instances used by witnesses and counterexamples -/

/-- No sync secret configured. -/
def cfgNoSecret : SyncConfig := ⟨none⟩

/-- A sync secret left as a deployment placeholder. -/
def cfgPlaceholder : SyncConfig := ⟨some "REPLACE_WITH_YOUR_SECRET"⟩

/-- A genuinely configured sync secret. -/
def cfgRealSecret : SyncConfig := ⟨some "super-secret-123"⟩

/-- Both collections empty. -/
def emptyStore : AdsStore := ⟨[], []⟩

/-- A first `MESSAGE_CREATE` for message `m1`. -/
def payloadCreateFirst : SyncPayload :=
  ⟨some "MESSAGE_CREATE", some "m1", none, none, none, some "First", some "Body one", none⟩

/-- A second `MESSAGE_CREATE` for the same message id, different title. -/
def payloadCreateSecond : SyncPayload :=
  ⟨some "MESSAGE_CREATE", some "m1", none, none, none, some "Second", some "Body two", none⟩

/-- A `MESSAGE_CREATE` carrying neither title nor content nor body. -/
def payloadNoTitle : SyncPayload :=
  ⟨some "MESSAGE_CREATE", some "m1", none, none, none, none, none, none⟩

/-- A `MESSAGE_CREATE` with a whitespace-only title and a non-empty content. -/
def payloadWsTitle : SyncPayload :=
  ⟨some "MESSAGE_CREATE", some "m1", none, none, none, some "   ", none, some "hello"⟩

/-- A `MESSAGE_UPDATE` for message `m1` with fresh title and body. -/
def payloadUpdateOne : SyncPayload :=
  ⟨some "MESSAGE_UPDATE", some "m1", none, none, none, some "New title", some "New body", none⟩

/-- A `MESSAGE_UPDATE` whose title is whitespace and whose body and content
are absent. -/
def payloadBlankUpdate : SyncPayload :=
  ⟨some "MESSAGE_UPDATE", some "m1", none, none, none, some "   ", none, none⟩

/-- A `MESSAGE_DELETE` for message `m1`. -/
def payloadDeleteOne : SyncPayload :=
  ⟨some "MESSAGE_DELETE", some "m1", none, none, none, none, none, none⟩

/-- Well-formed POST requests around the payloads above. -/
def reqCreateFirst : SyncRequest := ⟨"POST", none, payloadCreateFirst⟩

/-- POST of `payloadCreateSecond` with no secret header. -/
def reqCreateSecond : SyncRequest := ⟨"POST", none, payloadCreateSecond⟩

/-- POST of `payloadNoTitle` with no secret header. -/
def reqNoTitle : SyncRequest := ⟨"POST", none, payloadNoTitle⟩

/-- POST of `payloadWsTitle` with no secret header. -/
def reqWsTitle : SyncRequest := ⟨"POST", none, payloadWsTitle⟩

/-- POST of `payloadUpdateOne` with no secret header. -/
def reqUpdateOne : SyncRequest := ⟨"POST", none, payloadUpdateOne⟩

/-- POST of `payloadBlankUpdate` with no secret header. -/
def reqBlankUpdate : SyncRequest := ⟨"POST", none, payloadBlankUpdate⟩

/-- POST of `payloadDeleteOne` with no secret header. -/
def reqDeleteOne : SyncRequest := ⟨"POST", none, payloadDeleteOne⟩

/-- POST whose secret header matches neither the placeholder config value nor
anything else. -/
def reqWrongSecretPlaceholder : SyncRequest := ⟨"POST", some "wrong-secret", payloadCreateFirst⟩

/-- POST whose secret header does not match the real configured secret. -/
def reqBadHeader : SyncRequest := ⟨"POST", some "wrong", payloadCreateFirst⟩

/-- An active Discord-sourced ad for message `m1`. -/
def adActive : AdDoc := ⟨"Old title", "Old body", "discord", "active", "m1", "", "", none⟩

/-- A store holding exactly `adActive`. -/
def storeOneAd : AdsStore := ⟨[adActive], []⟩

/-- An authenticated caller holding only a `tutor` claim. -/
def tutorOnlyCtx : AuthCtx := ⟨"caller1", fun k => if k = "tutor" then some true else none⟩

/-- An authenticated staff caller. -/
def staffCtx : AuthCtx := ⟨"admin1", fun k => if k = "staff" then some true else none⟩

/-- Approval data targeting `user1` with no application id. -/
def approveDataOne : ApproveData := ⟨some "user1", none⟩

/-- A user record whose pre-existing claims carry `staff = true`. -/
def userWithStaff : UserRec := ⟨some (fun k => if k = "staff" then some true else none)⟩

/-- A state holding `user1` (with a staff claim) and no applications. -/
def stUsers : AdminState :=
  ⟨fun k => if k = "user1" then some userWithStaff else none, fun _ => none⟩

/-- A tutor application with every required field present. -/
def fullSubmitData : SubmitData :=
  ⟨some "Ada", some "Lovelace", some "ada@example.com", some "Math", some "I teach.", none, none⟩

/-- A configured (non-placeholder) notification webhook URL. -/
def discordUrl : Option String := some "https://discord.example/webhook"

/-! ## Helper lemmas -/

theorem jsSlice_length_le (s : String) (n : Nat) : (jsSlice s n).length ≤ n := by
  show (s.data.take n).length ≤ n
  rw [List.length_take]
  exact Nat.min_le_left _ _

theorem jsSlice_eq_empty_iff (s : String) (n : Nat) (hn : 0 < n) :
    jsSlice s n = "" ↔ s = "" := by
  rw [String.ext_iff, String.ext_iff]
  show s.data.take n = ("" : String).data ↔ s.data = ("" : String).data
  have h0 : ("" : String).data = [] := rfl
  rw [h0]
  constructor
  · intro h
    cases hl : s.data with
    | nil => rfl
    | cons c cs =>
      rw [hl] at h
      cases n with
      | zero => exact absurd hn (by omega)
      | succ m => simp at h
  · intro h
    rw [h]
    simp

theorem findAd_append_of_none {ads : List AdDoc} {mid : String} (b : AdDoc)
    (h : findAd ads mid = none) :
    findAd (ads ++ [b]) mid = if b.discordMessageId = mid then some b else none := by
  induction ads with
  | nil => simp [findAd]
  | cons a rest ih =>
    rw [List.cons_append]
    unfold findAd at h ⊢
    split at h
    · exact absurd h (by simp)
    · rename_i hne
      rw [if_neg hne]
      exact ih h

theorem countAds_append (ads : List AdDoc) (b : AdDoc) (mid : String) :
    countAds (ads ++ [b]) mid
      = countAds ads mid + (if b.discordMessageId = mid then 1 else 0) := by
  induction ads with
  | nil => simp [countAds]
  | cons a rest ih =>
    rw [List.cons_append]
    unfold countAds
    rw [ih]
    omega

theorem countAds_eq_zero_of_findAd_none {ads : List AdDoc} {mid : String}
    (h : findAd ads mid = none) : countAds ads mid = 0 := by
  induction ads with
  | nil => rfl
  | cons a rest ih =>
    unfold findAd at h
    split at h
    · exact absurd h (by simp)
    · rename_i hne
      unfold countAds
      rw [if_neg hne, ih h]

theorem updateFirstAd_length (ads : List AdDoc) (mid : String) (f : AdDoc → AdDoc) :
    (updateFirstAd ads mid f).length = ads.length := by
  induction ads with
  | nil => rfl
  | cons a rest ih =>
    unfold updateFirstAd
    split
    · simp
    · simp [ih]

theorem findAd_updateFirstAd (ads : List AdDoc) (mid : String) (f : AdDoc → AdDoc)
    (hf : ∀ a, (f a).discordMessageId = a.discordMessageId) :
    findAd (updateFirstAd ads mid f) mid = (findAd ads mid).map f := by
  induction ads with
  | nil => rfl
  | cons a rest ih =>
    by_cases hmid : a.discordMessageId = mid
    · simp [updateFirstAd, findAd, hmid, hf a]
    · simp [updateFirstAd, findAd, hmid, ih]

theorem countAds_updateFirstAd (ads : List AdDoc) (mid m : String) (f : AdDoc → AdDoc)
    (hf : ∀ a, (f a).discordMessageId = a.discordMessageId) :
    countAds (updateFirstAd ads mid f) m = countAds ads m := by
  induction ads with
  | nil => rfl
  | cons a rest ih =>
    by_cases hmid : a.discordMessageId = mid
    · simp [updateFirstAd, countAds, hmid, hf a]
    · simp [updateFirstAd, countAds, hmid, ih]

/-! ## Claim theorems -/

/-- Claim C3, amended: when a sync secret is configured and the check is
therefore enabled (present, non-empty, not a `REPLACE` placeholder), a POST
request whose `x-tl-sync-secret` header does not match receives 401, the
store is untouched, the `ads` collection is never queried, and the outcome is
the same whatever payload the request body carries. -/
theorem syncWebhook_rejects_bad_secret (cfg : SyncConfig) (req : SyncRequest) (st : AdsStore)
    (hc : secretCheckEnabled cfg = true) (hm : req.method = "POST")
    (hh : optStr req.syncSecretHeader ≠ optStr cfg.sync_secret) :
    syncDiscordAdsWebhook cfg req st = ⟨401, st, false⟩
    ∧ ∀ p : SyncPayload,
        syncDiscordAdsWebhook cfg { req with body := p } st = ⟨401, st, false⟩ := by
  constructor
  · unfold syncDiscordAdsWebhook
    rw [if_neg (fun h => h hm), if_pos ⟨hc, hh⟩]
  · intro p
    unfold syncDiscordAdsWebhook
    rw [if_neg (fun h => h hm), if_pos ⟨hc, hh⟩]

/-- Claim C7: a valid `MESSAGE_UPDATE` request for an unknown message id
returns 404 with the store unchanged; for an existing ad it returns 200 and
patches exactly that ad's title and body, leaving its status field (and the
rest of the store) as they were. -/
theorem messageUpdate_patches_or_notFound (cfg : SyncConfig) (req : SyncRequest) (st : AdsStore)
    (hm : req.method = "POST") (hs : secretOk cfg req)
    (he : eventOf req.body = "MESSAGE_UPDATE") (hmid : midOf req.body ≠ "") :
    (findAd st.ads (midOf req.body) = none →
      syncDiscordAdsWebhook cfg req st = ⟨404, st, true⟩)
    ∧ (∀ a, findAd st.ads (midOf req.body) = some a →
        syncDiscordAdsWebhook cfg req st =
          ⟨200, { st with ads := (updateFirstAd st.ads (midOf req.body)
              (applyUpdate (extractAdContent req.body).1 (extractAdContent req.body).2)) }, true⟩
        ∧ findAd (syncDiscordAdsWebhook cfg req st).store.ads (midOf req.body) =
            some (applyUpdate (extractAdContent req.body).1 (extractAdContent req.body).2 a)
        ∧ (applyUpdate (extractAdContent req.body).1 (extractAdContent req.body).2 a).status
            = a.status) := by
  have hrun : syncDiscordAdsWebhook cfg req st =
      (match findAd st.ads (midOf req.body) with
       | none => (⟨404, st, true⟩ : WebhookOutcome)
       | some _ =>
         ⟨200, { st with ads := (updateFirstAd st.ads (midOf req.body)
             (applyUpdate (extractAdContent req.body).1 (extractAdContent req.body).2)) },
           true⟩) := by
    unfold syncDiscordAdsWebhook
    rw [if_neg (fun h => h hm), if_neg hs, if_neg hmid, he,
      if_neg (by decide : ¬("MESSAGE_UPDATE" = "MESSAGE_CREATE")), if_pos rfl]
  constructor
  · intro hnone
    rw [hrun, hnone]
  · intro a ha
    have h200 : syncDiscordAdsWebhook cfg req st =
        ⟨200, { st with ads := (updateFirstAd st.ads (midOf req.body)
            (applyUpdate (extractAdContent req.body).1 (extractAdContent req.body).2)) },
          true⟩ := by
      rw [hrun, ha]
    refine ⟨h200, ?_, rfl⟩
    rw [h200]
    show findAd (updateFirstAd st.ads (midOf req.body)
        (applyUpdate (extractAdContent req.body).1 (extractAdContent req.body).2))
        (midOf req.body) = _
    rw [findAd_updateFirstAd st.ads (midOf req.body)
      (applyUpdate (extractAdContent req.body).1 (extractAdContent req.body).2)
      (fun a => rfl), ha]
    rfl

/-- Claim C8: a valid `MESSAGE_DELETE` request archives the existing ad for
that message id without deleting any document (the ads list keeps its
length); when no ad exists it is a 200 no-op that writes nothing. -/
theorem messageDelete_archives_or_noop (cfg : SyncConfig) (req : SyncRequest) (st : AdsStore)
    (hm : req.method = "POST") (hs : secretOk cfg req)
    (he : eventOf req.body = "MESSAGE_DELETE") (hmid : midOf req.body ≠ "") :
    (∀ a, findAd st.ads (midOf req.body) = some a →
      syncDiscordAdsWebhook cfg req st =
        ⟨200, { st with ads := (updateFirstAd st.ads (midOf req.body) applyArchive) }, true⟩
      ∧ ((syncDiscordAdsWebhook cfg req st).store.ads).length = st.ads.length
      ∧ findAd (syncDiscordAdsWebhook cfg req st).store.ads (midOf req.body) =
          some (applyArchive a)
      ∧ (applyArchive a).status = "archived")
    ∧ (findAd st.ads (midOf req.body) = none →
        syncDiscordAdsWebhook cfg req st = ⟨200, st, true⟩) := by
  have hrun : syncDiscordAdsWebhook cfg req st =
      (match findAd st.ads (midOf req.body) with
       | some _ =>
         (⟨200, { st with ads := (updateFirstAd st.ads (midOf req.body) applyArchive) },
           true⟩ : WebhookOutcome)
       | none => ⟨200, st, true⟩) := by
    unfold syncDiscordAdsWebhook
    rw [if_neg (fun h => h hm), if_neg hs, if_neg hmid, he,
      if_neg (by decide : ¬("MESSAGE_DELETE" = "MESSAGE_CREATE")),
      if_neg (by decide : ¬("MESSAGE_DELETE" = "MESSAGE_UPDATE")), if_pos rfl]
  constructor
  · intro a ha
    have h200 : syncDiscordAdsWebhook cfg req st =
        ⟨200, { st with ads := (updateFirstAd st.ads (midOf req.body) applyArchive) }, true⟩ := by
      rw [hrun, ha]
    refine ⟨h200, ?_, ?_, rfl⟩
    · rw [h200]
      exact updateFirstAd_length st.ads (midOf req.body) applyArchive
    · rw [h200]
      show findAd (updateFirstAd st.ads (midOf req.body) applyArchive) (midOf req.body) = _
      rw [findAd_updateFirstAd st.ads (midOf req.body) applyArchive (fun a => rfl), ha]
      rfl
  · intro hnone
    rw [hrun, hnone]

/-- Claim C10: a valid `MESSAGE_UPDATE` whose payload has no usable `title`,
`body` or `content` (each absent or whitespace-only) still patches an
existing ad, overwriting its title and body with empty strings instead of
preserving the previous values (the status field is untouched). -/
theorem messageUpdate_blank_payload_overwrites (cfg : SyncConfig) (req : SyncRequest)
    (st : AdsStore) (a : AdDoc)
    (hm : req.method = "POST") (hs : secretOk cfg req)
    (he : eventOf req.body = "MESSAGE_UPDATE") (hmid : midOf req.body ≠ "")
    (ha : findAd st.ads (midOf req.body) = some a)
    (h1 : jsTrim (optStr req.body.title) = "")
    (h2 : jsTrim (optStr req.body.body) = "")
    (h3 : jsTrim (optStr req.body.content) = "") :
    (syncDiscordAdsWebhook cfg req st).status = 200
    ∧ findAd (syncDiscordAdsWebhook cfg req st).store.ads (midOf req.body) =
        some { a with title := "", body := "" }
    ∧ (({ a with title := "", body := "" } : AdDoc)).status = a.status := by
  have hT : jsTrim (jsOr2 req.body.title req.body.content) = "" := by
    unfold jsOr2
    split
    · exact h3
    · exact h1
  have hB : jsTrim (jsOr2 req.body.body req.body.content) = "" := by
    unfold jsOr2
    split
    · exact h3
    · exact h2
  have hextract : extractAdContent req.body = ("", "") := by
    unfold extractAdContent
    rw [hT, hB]
    rfl
  have hrun : syncDiscordAdsWebhook cfg req st =
      ⟨200, { st with ads := (updateFirstAd st.ads (midOf req.body) (applyUpdate "" "")) },
        true⟩ := by
    unfold syncDiscordAdsWebhook
    rw [if_neg (fun h => h hm), if_neg hs, if_neg hmid, he,
      if_neg (by decide : ¬("MESSAGE_UPDATE" = "MESSAGE_CREATE")), if_pos rfl, hextract, ha]
  refine ⟨by rw [hrun], ?_, rfl⟩
  rw [hrun]
  show findAd (updateFirstAd st.ads (midOf req.body) (applyUpdate "" "")) (midOf req.body) = _
  rw [findAd_updateFirstAd st.ads (midOf req.body) (applyUpdate "" "") (fun a => rfl), ha]
  rfl

/-- Claim C9, amended: a valid `MESSAGE_CREATE` request fails with 400 if and
only if the value that the code resolves for the title — the first truthy of
`title` and `content` — trims to the empty string (so a whitespace-only
`title` is rejected even when `content` is non-empty); on success (200) the
ad stored under the message id has a title of at most 120 characters and a
body of at most 2000 characters. -/
theorem messageCreate_validation_truncation (cfg : SyncConfig) (req : SyncRequest) (st : AdsStore)
    (hm : req.method = "POST") (hs : secretOk cfg req)
    (he : eventOf req.body = "MESSAGE_CREATE") (hmid : midOf req.body ≠ "") :
    ((syncDiscordAdsWebhook cfg req st).status = 400 ↔
      jsTrim (jsOr2 req.body.title req.body.content) = "")
    ∧ ((syncDiscordAdsWebhook cfg req st).status = 200 →
        ∃ ad, findAd (syncDiscordAdsWebhook cfg req st).store.ads (midOf req.body) = some ad
          ∧ ad.title.length ≤ 120 ∧ ad.body.length ≤ 2000) := by
  have hTiff : (extractAdContent req.body).1 = "" ↔
      jsTrim (jsOr2 req.body.title req.body.content) = "" :=
    jsSlice_eq_empty_iff (jsTrim (jsOr2 req.body.title req.body.content)) 120 (by omega)
  have hrun : syncDiscordAdsWebhook cfg req st =
      (if (extractAdContent req.body).1 = "" then (⟨400, st, true⟩ : WebhookOutcome)
       else
        match findAd st.ads (midOf req.body) with
        | some _ =>
          ⟨200, { st with ads := (updateFirstAd st.ads (midOf req.body)
              (applyCreate (extractAdContent req.body).1 (extractAdContent req.body).2)) },
            true⟩
        | none => ⟨200, { st with ads := st.ads ++ [newAd req.body] }, true⟩) := by
    unfold syncDiscordAdsWebhook
    rw [if_neg (fun h => h hm), if_neg hs, if_neg hmid, he, if_pos rfl]
  by_cases hT : (extractAdContent req.body).1 = ""
  · have h400 : syncDiscordAdsWebhook cfg req st = ⟨400, st, true⟩ := by
      rw [hrun, if_pos hT]
    rw [h400]
    constructor
    · exact ⟨fun _ => hTiff.mp hT, fun _ => rfl⟩
    · intro h200
      exact absurd h200 (by simp)
  · cases hfind : findAd st.ads (midOf req.body) with
    | some a =>
      have h200 : syncDiscordAdsWebhook cfg req st =
          ⟨200, { st with ads := (updateFirstAd st.ads (midOf req.body)
              (applyCreate (extractAdContent req.body).1 (extractAdContent req.body).2)) },
            true⟩ := by
        rw [hrun, if_neg hT, hfind]
      rw [h200]
      constructor
      · constructor
        · intro h400
          exact absurd h400 (by simp)
        · intro htrim
          exact absurd (hTiff.mpr htrim) hT
      · intro _
        refine ⟨applyCreate (extractAdContent req.body).1 (extractAdContent req.body).2 a,
          ?_, ?_, ?_⟩
        · show findAd (updateFirstAd st.ads (midOf req.body)
              (applyCreate (extractAdContent req.body).1 (extractAdContent req.body).2))
              (midOf req.body) = _
          rw [findAd_updateFirstAd st.ads (midOf req.body)
            (applyCreate (extractAdContent req.body).1 (extractAdContent req.body).2)
            (fun a => rfl), hfind]
          rfl
        · exact jsSlice_length_le _ 120
        · exact jsSlice_length_le _ 2000
    | none =>
      have h200 : syncDiscordAdsWebhook cfg req st =
          ⟨200, { st with ads := st.ads ++ [newAd req.body] }, true⟩ := by
        rw [hrun, if_neg hT, hfind]
      rw [h200]
      constructor
      · constructor
        · intro h400
          exact absurd h400 (by simp)
        · intro htrim
          exact absurd (hTiff.mpr htrim) hT
      · intro _
        refine ⟨newAd req.body, ?_, ?_, ?_⟩
        · show findAd (st.ads ++ [newAd req.body]) (midOf req.body) = some (newAd req.body)
          rw [findAd_append_of_none (newAd req.body) hfind]
          exact if_pos rfl
        · exact jsSlice_length_le _ 120
        · exact jsSlice_length_le _ 2000

/-- Claim C1, amended: for a valid `MESSAGE_CREATE` request whose extracted
title is non-empty (otherwise the endpoint answers 400 and writes nothing):
if no ad carries the message id, exactly one new ad is appended, with
`source = "discord"`, `status = "active"` and that `discordMessageId`; if an
ad already exists, that ad's title and body are updated and its status forced
to `active` with no new document; hence two sequential such requests for the
same fresh message id leave exactly one ad for it, active and bearing the
second request's title. -/
theorem messageCreate_upsert_idempotent (cfg : SyncConfig) (r1 r2 : SyncRequest) (st : AdsStore)
    (hm1 : r1.method = "POST") (hm2 : r2.method = "POST")
    (hs1 : secretOk cfg r1) (hs2 : secretOk cfg r2)
    (he1 : eventOf r1.body = "MESSAGE_CREATE") (he2 : eventOf r2.body = "MESSAGE_CREATE")
    (hid : midOf r2.body = midOf r1.body) (hmid : midOf r1.body ≠ "")
    (ht1 : (extractAdContent r1.body).1 ≠ "") (ht2 : (extractAdContent r2.body).1 ≠ "") :
    (findAd st.ads (midOf r1.body) = none →
      (syncDiscordAdsWebhook cfg r1 st).store.ads = st.ads ++ [newAd r1.body]
      ∧ (newAd r1.body).source = "discord" ∧ (newAd r1.body).status = "active"
      ∧ (newAd r1.body).discordMessageId = midOf r1.body
      ∧ countAds (syncDiscordAdsWebhook cfg r1 st).store.ads (midOf r1.body) = 1)
    ∧ (∀ a, findAd st.ads (midOf r1.body) = some a →
        (syncDiscordAdsWebhook cfg r1 st).store.ads =
          (updateFirstAd st.ads (midOf r1.body)
            (applyCreate (extractAdContent r1.body).1 (extractAdContent r1.body).2))
        ∧ ((syncDiscordAdsWebhook cfg r1 st).store.ads).length = st.ads.length
        ∧ findAd (syncDiscordAdsWebhook cfg r1 st).store.ads (midOf r1.body) =
            some (applyCreate (extractAdContent r1.body).1 (extractAdContent r1.body).2 a))
    ∧ (findAd st.ads (midOf r1.body) = none →
        countAds (syncDiscordAdsWebhook cfg r2
            (syncDiscordAdsWebhook cfg r1 st).store).store.ads (midOf r1.body) = 1
        ∧ ∃ ad, findAd (syncDiscordAdsWebhook cfg r2
              (syncDiscordAdsWebhook cfg r1 st).store).store.ads (midOf r1.body) = some ad
            ∧ ad.status = "active" ∧ ad.title = (extractAdContent r2.body).1) := by
  have hrun1 : syncDiscordAdsWebhook cfg r1 st =
      (match findAd st.ads (midOf r1.body) with
       | some _ =>
         (⟨200, { st with ads := (updateFirstAd st.ads (midOf r1.body)
             (applyCreate (extractAdContent r1.body).1 (extractAdContent r1.body).2)) },
           true⟩ : WebhookOutcome)
       | none => ⟨200, { st with ads := st.ads ++ [newAd r1.body] }, true⟩) := by
    unfold syncDiscordAdsWebhook
    rw [if_neg (fun h => h hm1), if_neg hs1, if_neg hmid, he1, if_pos rfl, if_neg ht1]
  have hnewmid : (newAd r1.body).discordMessageId = midOf r1.body := rfl
  refine ⟨?_, ?_, ?_⟩
  · intro hnone
    have hads : (syncDiscordAdsWebhook cfg r1 st).store.ads = st.ads ++ [newAd r1.body] := by
      rw [hrun1, hnone]
    refine ⟨hads, rfl, rfl, rfl, ?_⟩
    rw [hads, countAds_append, countAds_eq_zero_of_findAd_none hnone, if_pos hnewmid]
  · intro a ha
    have hads : (syncDiscordAdsWebhook cfg r1 st).store.ads =
        (updateFirstAd st.ads (midOf r1.body)
          (applyCreate (extractAdContent r1.body).1 (extractAdContent r1.body).2)) := by
      rw [hrun1, ha]
    refine ⟨hads, ?_, ?_⟩
    · rw [hads]
      exact updateFirstAd_length st.ads (midOf r1.body)
        (applyCreate (extractAdContent r1.body).1 (extractAdContent r1.body).2)
    · rw [hads]
      rw [findAd_updateFirstAd st.ads (midOf r1.body)
        (applyCreate (extractAdContent r1.body).1 (extractAdContent r1.body).2)
        (fun a => rfl), ha]
      rfl
  · intro hnone
    have hads1 : (syncDiscordAdsWebhook cfg r1 st).store.ads = st.ads ++ [newAd r1.body] := by
      rw [hrun1, hnone]
    have hfind1 : findAd (syncDiscordAdsWebhook cfg r1 st).store.ads (midOf r1.body)
        = some (newAd r1.body) := by
      rw [hads1, findAd_append_of_none (newAd r1.body) hnone]
      exact if_pos hnewmid
    have hmid2 : midOf r2.body ≠ "" := by
      rw [hid]
      exact hmid
    have hrun2 : ∀ s : AdsStore, syncDiscordAdsWebhook cfg r2 s =
        (match findAd s.ads (midOf r2.body) with
         | some _ =>
           (⟨200, { s with ads := (updateFirstAd s.ads (midOf r2.body)
               (applyCreate (extractAdContent r2.body).1 (extractAdContent r2.body).2)) },
             true⟩ : WebhookOutcome)
         | none => ⟨200, { s with ads := s.ads ++ [newAd r2.body] }, true⟩) := by
      intro s
      unfold syncDiscordAdsWebhook
      rw [if_neg (fun h => h hm2), if_neg hs2, if_neg hmid2, he2, if_pos rfl, if_neg ht2]
    have h2eq : syncDiscordAdsWebhook cfg r2 (syncDiscordAdsWebhook cfg r1 st).store =
        ⟨200, { (syncDiscordAdsWebhook cfg r1 st).store with
            ads := (updateFirstAd (syncDiscordAdsWebhook cfg r1 st).store.ads (midOf r1.body)
              (applyCreate (extractAdContent r2.body).1 (extractAdContent r2.body).2)) },
          true⟩ := by
      rw [hrun2 (syncDiscordAdsWebhook cfg r1 st).store, hid, hfind1]
    constructor
    · rw [h2eq]
      show countAds (updateFirstAd (syncDiscordAdsWebhook cfg r1 st).store.ads (midOf r1.body)
          (applyCreate (extractAdContent r2.body).1 (extractAdContent r2.body).2))
          (midOf r1.body) = 1
      rw [countAds_updateFirstAd (syncDiscordAdsWebhook cfg r1 st).store.ads (midOf r1.body)
        (midOf r1.body)
        (applyCreate (extractAdContent r2.body).1 (extractAdContent r2.body).2) (fun a => rfl)]
      rw [hads1, countAds_append, countAds_eq_zero_of_findAd_none hnone, if_pos hnewmid]
    · refine ⟨applyCreate (extractAdContent r2.body).1 (extractAdContent r2.body).2
        (newAd r1.body), ?_, rfl, rfl⟩
      rw [h2eq]
      show findAd (updateFirstAd (syncDiscordAdsWebhook cfg r1 st).store.ads (midOf r1.body)
          (applyCreate (extractAdContent r2.body).1 (extractAdContent r2.body).2))
          (midOf r1.body) = _
      rw [findAd_updateFirstAd (syncDiscordAdsWebhook cfg r1 st).store.ads (midOf r1.body)
        (applyCreate (extractAdContent r2.body).1 (extractAdContent r2.body).2)
        (fun a => rfl), hfind1]
      rfl

/-- Claim C2: the implemented role resolution coincides, for every principal
and every claim-fetch outcome, with the role the spec describes (staff on
staff-claim or admin email, else tutor on tutor-claim, else student; fetch
failure falls back to admin-email-staff or student; no principal means
guest). -/
theorem resolveRole_matches_spec :
    ∀ (user : Option Principal) (fetch : TokenFetch),
      handleAuthStateChange user fetch = specRole user fetch := by
  have hAdmin : ∀ e, isAdminEmailJs e = emailMatchesAdminSpec e := by
    intro e
    match e with
    | none => rfl
    | some s =>
      show (if s = "" then false else if jsLower s = ADMIN_EMAIL then true else false)
          = (if jsLower s = jsLower ADMIN_EMAIL then true else false)
      have hlow : jsLower ADMIN_EMAIL = ADMIN_EMAIL := by decide
      rw [hlow]
      by_cases hs : s = ""
      · subst hs
        rw [if_pos rfl, if_neg (by decide : ¬(jsLower "" = ADMIN_EMAIL))]
      · rw [if_neg hs]
  intro user fetch
  cases user with
  | none => rfl
  | some u =>
    cases fetch with
    | ok claims =>
      show (if claims.staff = true ∨ isAdminEmailJs u.email = true then Role.staff
            else if claims.tutor = true then Role.tutor else Role.student)
          = (if claims.staff = true ∨ emailMatchesAdminSpec u.email = true then Role.staff
            else if claims.tutor = true then Role.tutor else Role.student)
      rw [hAdmin u.email]
    | failed =>
      show (if isAdminEmailJs u.email = true then Role.staff else Role.student)
          = (if emailMatchesAdminSpec u.email = true then Role.staff else Role.student)
      rw [hAdmin u.email]

/-- Claim C4: a caller without an authenticated `staff=true` claim (including
no caller at all) gets `PermissionDenied` from `approveTutorApplication`, and
the state — user claims and every `tutorApplications` document — is returned
exactly as it was. -/
theorem approve_requires_staff (auth : Option AuthCtx) (data : ApproveData) (st : AdminState)
    (h : ¬ isStaffCaller auth) :
    approveTutorApplication auth data st =
      (st, .error (.permissionDenied "Only staff can approve tutor applications.")) := by
  cases auth with
  | none => rfl
  | some a =>
    have ha : ¬ a.token "staff" = some true := fun hx => h ⟨a, rfl, hx⟩
    simp only [approveTutorApplication]
    rw [if_neg ha]

/-- On-success shape of `approveTutorApplication`: the target user exists and
the post-state user table is the pre-state one with the target's claims
replaced by the `tutor`-merged bag. -/
theorem approveApplicationDoc_users (st : AdminState) (appId approver : String) :
    ((approveApplicationDoc st appId approver).1).users = st.users := by
  unfold approveApplicationDoc
  cases st.tutorApplications appId <;> rfl

/-- If `approveTutorApplication` succeeds, the target uid resolves to a user
`u` of the pre-state and the post-state user table equals the pre-state table
with the tutor-claim merge applied to that uid. -/
theorem approve_ok_users (auth : Option AuthCtx) (data : ApproveData) (st : AdminState)
    (h : (approveTutorApplication auth data st).2 = .ok ()) :
    ∃ u, st.users (jsTrim (optStr data.uid)) = some u
      ∧ (approveTutorApplication auth data st).1.users =
          (setUserClaims st (jsTrim (optStr data.uid))
            (mergedTutorClaims (u.customClaims.getD emptyClaims))).users := by
  cases auth with
  | none => simp [approveTutorApplication] at h
  | some a =>
    by_cases hstaff : a.token "staff" = some true
    · by_cases huid : jsTrim (optStr data.uid) = ""
      · simp [approveTutorApplication, hstaff, huid] at h
      · cases hu : st.users (jsTrim (optStr data.uid)) with
        | none => simp [approveTutorApplication, hstaff, huid, hu] at h
        | some u =>
          refine ⟨u, rfl, ?_⟩
          by_cases happ : optStr data.applicationId = ""
          · simp [approveTutorApplication, hstaff, huid, hu, happ]
          · simp [approveTutorApplication, hstaff, huid, hu, happ]
            exact approveApplicationDoc_users _ _ _
    · simp [approveTutorApplication, hstaff] at h

/-- Claim C5: a successful `approveTutorApplication` leaves the target user
with `tutor = true`, and every other claim key — in particular a pre-existing
`staff = true` — keeps exactly its pre-existing value. -/
theorem approve_merges_tutor_claim (auth : Option AuthCtx) (data : ApproveData) (st : AdminState)
    (h : (approveTutorApplication auth data st).2 = .ok ()) :
    claimsOfUser (approveTutorApplication auth data st).1 (jsTrim (optStr data.uid)) "tutor"
      = some true
    ∧ ∀ k, k ≠ "tutor" →
        claimsOfUser (approveTutorApplication auth data st).1 (jsTrim (optStr data.uid)) k
          = claimsOfUser st (jsTrim (optStr data.uid)) k := by
  obtain ⟨u, hu, husers⟩ := approve_ok_users auth data st h
  have hlook : (approveTutorApplication auth data st).1.users (jsTrim (optStr data.uid))
      = some ⟨some (mergedTutorClaims (u.customClaims.getD emptyClaims))⟩ := by
    rw [husers]
    simp [setUserClaims]
  have hclaims : claimsOfUser (approveTutorApplication auth data st).1
      (jsTrim (optStr data.uid)) = mergedTutorClaims (u.customClaims.getD emptyClaims) := by
    unfold claimsOfUser
    rw [hlook]
    rfl
  rw [hclaims]
  constructor
  · unfold mergedTutorClaims
    exact if_pos rfl
  · intro k hk
    unfold mergedTutorClaims claimsOfUser
    rw [if_neg hk, hu]

/-- The notifier promise resolves whenever the webhook answered at all,
whatever the status code; the status is never inspected. -/
theorem notifyDiscord_ok_on_response (url : Option String) (c : Nat) :
    notifyDiscord url (.response c) = .ok () := by
  unfold notifyDiscord
  by_cases hcfg : webhookConfigured url = false
  · rw [if_pos hcfg]
  · rw [if_neg hcfg]

/-- Claim C6, amended: an unconfigured or placeholder webhook URL makes the
notifier a no-error no-op; with a configured URL every received HTTP
response — any status code, 2xx or not — is swallowed and the calling
workflow still returns success; the committed write is never rolled back,
not even on a network failure; but a network failure itself is not caught,
so it propagates and fails the calling workflow (after the write). -/
theorem notifier_swallows_responses :
    (∀ (url : Option String) (net : NetOutcome),
      webhookConfigured url = false → notifyDiscord url net = .ok ())
    ∧ (∀ (url : Option String) (c : Nat), notifyDiscord url (.response c) = .ok ())
    ∧ (∀ (d : SubmitData) (uid url : Option String) (c : Nat) (apps : List ApplicationDoc),
        missingRequiredField d = none →
        submitTutorApplication d uid url (.response c) apps
          = (apps ++ [⟨d, "pending", uid⟩], .ok ()))
    ∧ (∀ (d : SubmitData) (uid url : Option String) (net : NetOutcome)
        (apps : List ApplicationDoc), missingRequiredField d = none →
        (submitTutorApplication d uid url net apps).1 = apps ++ [⟨d, "pending", uid⟩])
    ∧ (∀ (tid : Option String) (meta : Option BookMeta) (uid url : Option String) (c : Nat)
        (bookings : List BookingDoc), optStr tid ≠ "" →
        bookDemoClass tid meta uid url (.response c) bookings
          = (bookings ++ [mkBookingDoc tid meta uid], .ok ()))
    ∧ (∀ (tid : Option String) (meta : Option BookMeta) (uid url : Option String)
        (net : NetOutcome) (bookings : List BookingDoc), optStr tid ≠ "" →
        (bookDemoClass tid meta uid url net bookings).1
          = bookings ++ [mkBookingDoc tid meta uid]) := by
  refine ⟨?_, notifyDiscord_ok_on_response, ?_, ?_, ?_, ?_⟩
  · intro url net hcfg
    unfold notifyDiscord
    rw [if_pos hcfg]
  · intro d uid url c apps hv
    unfold submitTutorApplication
    rw [hv, notifyDiscord_ok_on_response url c]
  · intro d uid url net apps hv
    unfold submitTutorApplication
    rw [hv]
    cases hnd : notifyDiscord url net <;> rfl
  · intro tid meta uid url c bookings htid
    unfold bookDemoClass
    rw [if_neg htid, notifyDiscord_ok_on_response url c]
  · intro tid meta uid url net bookings htid
    unfold bookDemoClass
    rw [if_neg htid]
    cases hnd : notifyDiscord url net <;> rfl

/-! ## Witnesses and counterexamples -/

/-- Counterexample to C1 as stated: a `MESSAGE_CREATE` whose payload resolves
no title is answered 400 and inserts nothing, even though no ad exists for
its message id. -/
theorem messageCreate_empty_title_counterexample :
    findAd emptyStore.ads (midOf payloadNoTitle) = none
    ∧ (syncDiscordAdsWebhook cfgNoSecret reqNoTitle emptyStore).status = 400
    ∧ (syncDiscordAdsWebhook cfgNoSecret reqNoTitle emptyStore).store.ads = [] := by
  decide

/-- Witness for C1: two sequential creates for the fresh id `m1` with titles
`First` then `Second` leave exactly one ad for `m1`, active and titled
`Second`. -/
theorem messageCreate_upsert_idempotent_witness :
    (extractAdContent reqCreateFirst.body).1 ≠ ""
    ∧ (countAds (syncDiscordAdsWebhook cfgNoSecret reqCreateSecond
          (syncDiscordAdsWebhook cfgNoSecret reqCreateFirst emptyStore).store).store.ads
          (midOf reqCreateFirst.body) = 1
        ∧ ∃ ad, findAd (syncDiscordAdsWebhook cfgNoSecret reqCreateSecond
              (syncDiscordAdsWebhook cfgNoSecret reqCreateFirst emptyStore).store).store.ads
              (midOf reqCreateFirst.body) = some ad
            ∧ ad.status = "active" ∧ ad.title = (extractAdContent reqCreateSecond.body).1) :=
  ⟨by decide,
   (messageCreate_upsert_idempotent cfgNoSecret reqCreateFirst reqCreateSecond emptyStore
      rfl rfl (by decide) (by decide) (by decide) (by decide) rfl (by decide) (by decide)
      (by decide)).2.2 rfl⟩

/-- Counterexample to C3 as stated: with the secret left as a `REPLACE`
placeholder, a POST whose header does not match the configured value is not
rejected — it is answered 200, the ads collection is queried and a document
is written. -/
theorem syncWebhook_placeholder_secret_counterexample :
    optStr reqWrongSecretPlaceholder.syncSecretHeader ≠ optStr cfgPlaceholder.sync_secret
    ∧ (syncDiscordAdsWebhook cfgPlaceholder reqWrongSecretPlaceholder emptyStore).status = 200
    ∧ (syncDiscordAdsWebhook cfgPlaceholder reqWrongSecretPlaceholder
        emptyStore).store.ads.length = 1
    ∧ (syncDiscordAdsWebhook cfgPlaceholder reqWrongSecretPlaceholder emptyStore).adsQueried
        = true := by
  decide

/-- Witness for C3 (amended): with a real secret configured, a POST with a
wrong header receives 401 and nothing is read or written. -/
theorem syncWebhook_rejects_bad_secret_witness :
    secretCheckEnabled cfgRealSecret = true
    ∧ syncDiscordAdsWebhook cfgRealSecret reqBadHeader emptyStore = ⟨401, emptyStore, false⟩ :=
  ⟨by decide,
   (syncWebhook_rejects_bad_secret cfgRealSecret reqBadHeader emptyStore (by decide) rfl
      (by decide)).1⟩

/-- Witness for C4: a caller holding only a `tutor` claim is refused and the
state is returned unchanged. -/
theorem approve_requires_staff_witness :
    ¬ isStaffCaller (some tutorOnlyCtx)
    ∧ approveTutorApplication (some tutorOnlyCtx) approveDataOne stUsers
        = (stUsers, .error (.permissionDenied "Only staff can approve tutor applications.")) := by
  have hns : ¬ isStaffCaller (some tutorOnlyCtx) := by
    rintro ⟨a, ha, hcl⟩
    injection ha with ha2
    subst ha2
    exact absurd hcl (by decide)
  exact ⟨hns, approve_requires_staff (some tutorOnlyCtx) approveDataOne stUsers hns⟩

/-- Witness for C5: approving `user1`, whose pre-existing claims carry
`staff = true`, sets `tutor = true` and leaves every other claim key — in
particular `staff` — exactly as before. -/
theorem approve_merges_tutor_claim_witness :
    (approveTutorApplication (some staffCtx) approveDataOne stUsers).2 = .ok ()
    ∧ (claimsOfUser (approveTutorApplication (some staffCtx) approveDataOne stUsers).1
        (jsTrim (optStr approveDataOne.uid)) "tutor" = some true
      ∧ ∀ k, k ≠ "tutor" →
          claimsOfUser (approveTutorApplication (some staffCtx) approveDataOne stUsers).1
            (jsTrim (optStr approveDataOne.uid)) k
            = claimsOfUser stUsers (jsTrim (optStr approveDataOne.uid)) k) :=
  ⟨rfl, approve_merges_tutor_claim (some staffCtx) approveDataOne stUsers rfl⟩

/-- Counterexample to C6 as stated: with a configured webhook URL, a network
failure of the notifier is surfaced to the caller of
`submitTutorApplication` — the call errors even though the application
document was already committed (and stays committed). -/
theorem notifier_network_error_counterexample :
    (submitTutorApplication fullSubmitData none discordUrl .networkError []).2
        = .error .internal
    ∧ (submitTutorApplication fullSubmitData none discordUrl .networkError []).1
        = [⟨fullSubmitData, "pending", none⟩] :=
  ⟨rfl, rfl⟩

/-- Witness for C6 (amended): a valid submission with a configured URL and a
non-2xx response (404) still succeeds, with the document stored. -/
theorem notifier_swallows_responses_witness :
    missingRequiredField fullSubmitData = none
    ∧ submitTutorApplication fullSubmitData none discordUrl (.response 404) []
        = ([⟨fullSubmitData, "pending", none⟩], .ok ()) :=
  ⟨by decide,
   notifier_swallows_responses.2.2.1 fullSubmitData none discordUrl 404 [] (by decide)⟩

/-- Witness for C7: updating existing ad `m1` patches its title and body and
keeps its status. -/
theorem messageUpdate_patches_or_notFound_witness :
    findAd storeOneAd.ads (midOf reqUpdateOne.body) = some adActive
    ∧ ((findAd storeOneAd.ads (midOf reqUpdateOne.body) = none →
          syncDiscordAdsWebhook cfgNoSecret reqUpdateOne storeOneAd = ⟨404, storeOneAd, true⟩)
      ∧ (∀ a, findAd storeOneAd.ads (midOf reqUpdateOne.body) = some a →
          syncDiscordAdsWebhook cfgNoSecret reqUpdateOne storeOneAd =
            ⟨200, { storeOneAd with ads := (updateFirstAd storeOneAd.ads
                (midOf reqUpdateOne.body)
                (applyUpdate (extractAdContent reqUpdateOne.body).1
                  (extractAdContent reqUpdateOne.body).2)) }, true⟩
          ∧ findAd (syncDiscordAdsWebhook cfgNoSecret reqUpdateOne storeOneAd).store.ads
              (midOf reqUpdateOne.body) =
              some (applyUpdate (extractAdContent reqUpdateOne.body).1
                (extractAdContent reqUpdateOne.body).2 a)
          ∧ (applyUpdate (extractAdContent reqUpdateOne.body).1
              (extractAdContent reqUpdateOne.body).2 a).status = a.status)) :=
  ⟨by decide,
   messageUpdate_patches_or_notFound cfgNoSecret reqUpdateOne storeOneAd rfl (by decide)
     (by decide) (by decide)⟩

/-- Witness for C8: deleting existing ad `m1` archives it in place. -/
theorem messageDelete_archives_or_noop_witness :
    findAd storeOneAd.ads (midOf reqDeleteOne.body) = some adActive
    ∧ ((∀ a, findAd storeOneAd.ads (midOf reqDeleteOne.body) = some a →
          syncDiscordAdsWebhook cfgNoSecret reqDeleteOne storeOneAd =
            ⟨200, { storeOneAd with
                ads := (updateFirstAd storeOneAd.ads (midOf reqDeleteOne.body) applyArchive) },
              true⟩
          ∧ ((syncDiscordAdsWebhook cfgNoSecret reqDeleteOne storeOneAd).store.ads).length
              = storeOneAd.ads.length
          ∧ findAd (syncDiscordAdsWebhook cfgNoSecret reqDeleteOne storeOneAd).store.ads
              (midOf reqDeleteOne.body) = some (applyArchive a)
          ∧ (applyArchive a).status = "archived")
      ∧ (findAd storeOneAd.ads (midOf reqDeleteOne.body) = none →
          syncDiscordAdsWebhook cfgNoSecret reqDeleteOne storeOneAd = ⟨200, storeOneAd, true⟩)) :=
  ⟨by decide,
   messageDelete_archives_or_noop cfgNoSecret reqDeleteOne storeOneAd rfl (by decide)
     (by decide) (by decide)⟩

/-- Witness for C9 (amended): a valid create with title `First` satisfies the
400-iff-blank-title characterization and the truncation bounds. -/
theorem messageCreate_validation_truncation_witness :
    midOf reqCreateFirst.body ≠ ""
    ∧ (((syncDiscordAdsWebhook cfgNoSecret reqCreateFirst emptyStore).status = 400 ↔
        jsTrim (jsOr2 reqCreateFirst.body.title reqCreateFirst.body.content) = "")
      ∧ ((syncDiscordAdsWebhook cfgNoSecret reqCreateFirst emptyStore).status = 200 →
          ∃ ad, findAd (syncDiscordAdsWebhook cfgNoSecret reqCreateFirst emptyStore).store.ads
              (midOf reqCreateFirst.body) = some ad
            ∧ ad.title.length ≤ 120 ∧ ad.body.length ≤ 2000)) :=
  ⟨by decide,
   messageCreate_validation_truncation cfgNoSecret reqCreateFirst emptyStore rfl (by decide)
     (by decide) (by decide)⟩

/-- Counterexample to C9 as stated: a whitespace-only `title` together with a
non-empty `content` is rejected with 400, although content resolves to a
non-empty trimmed string. -/
theorem messageCreate_whitespace_title_counterexample :
    jsTrim (optStr reqWsTitle.body.content) ≠ ""
    ∧ jsTrim (optStr reqWsTitle.body.title) = ""
    ∧ (syncDiscordAdsWebhook cfgNoSecret reqWsTitle emptyStore).status = 400
    ∧ (syncDiscordAdsWebhook cfgNoSecret reqWsTitle emptyStore).store.ads = [] := by
  decide

/-- Witness for C10: a blank `MESSAGE_UPDATE` on existing ad `m1` leaves it
with empty title and body, status untouched. -/
theorem messageUpdate_blank_payload_overwrites_witness :
    jsTrim (optStr reqBlankUpdate.body.title) = ""
    ∧ ((syncDiscordAdsWebhook cfgNoSecret reqBlankUpdate storeOneAd).status = 200
      ∧ findAd (syncDiscordAdsWebhook cfgNoSecret reqBlankUpdate storeOneAd).store.ads
          (midOf reqBlankUpdate.body) = some { adActive with title := "", body := "" }
      ∧ (({ adActive with title := "", body := "" } : AdDoc)).status = adActive.status) :=
  ⟨by decide,
   messageUpdate_blank_payload_overwrites cfgNoSecret reqBlankUpdate storeOneAd adActive rfl
     (by decide) (by decide) (by decide) rfl (by decide) (by decide) (by decide)⟩
